import Mathlib

set_option linter.unusedVariables false

/-!
Shallow embedding of the two elephant.ai bridge sidecars:
`scripts/cc_bridge/cc_bridge.py` (Claude Agent SDK variant) and
`scripts/codex_bridge/codex_bridge.py` (Codex CLI variant).

Python values flowing through the parsed JSON config and the child
process's JSONL stream are modelled by `JVal` (JSON numbers are modelled
as integers; no claim depends on float semantics).  `json.loads` and
`str()` of the Python standard library are external to the repository:
parsing is taken as an oracle input (`Except String JVal`), and `pyStr`
models CPython's `str()` rendering.  Exception *messages* produced by the
CPython runtime (e.g. the text of an `AttributeError`) are not reproduced
verbatim; only which exception is raised and where matters to the
theorems below.
-/

/-! ### Python string primitives

The CPython string methods the bridges use, implemented over the
character list of the string (structurally recursive, so that concrete
runs evaluate by `rfl`/`decide`). -/

/-- The whitespace set of Python `str.strip()`. -/
def pyIsSpace (c : Char) : Bool :=
  c = ' ' || c = '\t' || c = '\n' || c = '\x0d' || c = '\x0b' || c = '\x0c'

/-- Python `s.strip()`. -/
def pyStrip (s : String) : String :=
  String.mk (((s.data.dropWhile pyIsSpace).reverse.dropWhile pyIsSpace).reverse)

/-- Python `s.lower()` (ASCII, the only range the bridges rely on). -/
def pyLower (s : String) : String :=
  String.mk (s.data.map Char.toLower)

/-- Python `len(s)` (code points). -/
def pyLen (s : String) : Nat := s.data.length

/-- Python `s[:n]`. -/
def pyTake (s : String) (n : Nat) : String := String.mk (s.data.take n)

/-- Python `s[n:]`. -/
def pyDrop (s : String) (n : Nat) : String := String.mk (s.data.drop n)

/-- Python `s.startswith(pat)`. -/
def pyStartsWith (s pat : String) : Bool := pat.data.isPrefixOf s.data

/-- Python `s.split(sep)[0]` for a one-character separator: the
characters before the first occurrence of the separator. -/
def pySplitHead (s : String) (c : Char) : String :=
  String.mk (s.data.takeWhile (· ≠ c))

/-- Python `sep.join(parts)`. -/
def joinSep (sep : String) : List String → String
  | [] => ""
  | [x] => x
  | x :: xs => x ++ sep ++ joinSep sep xs

/-- A Python/JSON value as produced by `json.loads`. -/
inductive JVal where
  | null
  | bool (b : Bool)
  | num (n : Int)
  | str (s : String)
  | arr (elems : List JVal)
  | obj (fields : List (String × JVal))

/-- Python truthiness (`bool(v)`) restricted to JSON-shaped values. -/
def JVal.truthy : JVal → Bool
  | .null => false
  | .bool b => b
  | .num n => n != 0
  | .str s => s != ""
  | .arr l => !l.isEmpty
  | .obj l => !l.isEmpty

/-- `d.get(key, dflt)` on a parsed JSON object (`json.loads` never
produces duplicate keys, so first-match lookup is the dict lookup). -/
def dictGetD (fields : List (String × JVal)) (key : String) (dflt : JVal) : JVal :=
  match fields.lookup key with
  | some v => v
  | none => dflt

/-- `d.get(key)` with Python's implicit `None` default. -/
def dictGet (fields : List (String × JVal)) (key : String) : JVal :=
  dictGetD fields key .null

/-- Python `x or y` specialised to the places the bridges use it. -/
def pyOr (v d : JVal) : JVal := if v.truthy then v else d

/-- Python `v == "lit"` where `lit` is a string literal: strings compare by
content, any other value compares unequal to a string. -/
def JVal.eqStr : JVal → String → Bool
  | .str s, t => s == t
  | _, _ => false

mutual
/-- CPython `str(v)` / f-string rendering of a JSON-shaped value. -/
def pyStr : JVal → String
  | .null => "None"
  | .bool true => "True"
  | .bool false => "False"
  | .num n => toString n
  | .str s => s
  | .arr l => "[" ++ pyReprList l ++ "]"
  | .obj l => "\x7b" ++ pyReprFields l ++ "\x7d"

/-- CPython `repr(v)` (as used when rendering containers). -/
def pyRepr : JVal → String
  | .null => "None"
  | .bool true => "True"
  | .bool false => "False"
  | .num n => toString n
  | .str s => String.singleton (Char.ofNat 39) ++ s ++ String.singleton (Char.ofNat 39)
  | .arr l => "[" ++ pyReprList l ++ "]"
  | .obj l => "\x7b" ++ pyReprFields l ++ "\x7d"

def pyReprList : List JVal → String
  | [] => ""
  | [v] => pyRepr v
  | v :: rest => pyRepr v ++ ", " ++ pyReprList rest

def pyReprFields : List (String × JVal) → String
  | [] => ""
  | [(k, v)] => pyRepr (.str k) ++ ": " ++ pyRepr v
  | (k, v) :: rest => pyRepr (.str k) ++ ": " ++ pyRepr v ++ ", " ++ pyReprFields rest
end

/-- A JSONL event emitted by either bridge (`_emit`).  The `answer`,
`cost` and `is_error` slots carry whatever Python value the driver put
there, hence `JVal`. -/
inductive Event where
  | tool (tool_name summary : String) (files : List String) (iter : Nat)
  | result (answer : JVal) (tokens : Int) (cost : JVal) (iters : Nat) (is_error : Bool)
  | error (message : String)

/-- A terminal event: `result` or `error` (protocol §2 of the spec). -/
def Event.isTerminal : Event → Bool
  | .result _ _ _ _ _ => true
  | .error _ => true
  | .tool _ _ _ _ => false

/-- The `iter` field of a `tool` event. -/
def Event.iterOf : Event → Option Nat
  | .tool _ _ _ i => some i
  | _ => none

/-- How the process run ended. -/
inductive Term where
  | normal
  | exitCode (c : Nat)
  | uncaught (exn : String)

/-- Observable outcome of one bridge process: the JSONL events written to
the output sink, whether the `.done` sentinel was created, and how the
process terminated. -/
structure RunOutcome where
  events : List Event
  sentinelWritten : Bool
  term : Term

/-! ## Lifecycle supervisor (identical in both bridges)

`_sigterm_handler` guarded by the module-global `_shutting_down` flag. -/

/-- Process state seen by the signal handler: the shutdown guard, the
events written so far, whether the sentinel was written, and whether the
process has been told to exit. -/
structure SigState where
  shuttingDown : Bool
  events : List Event
  sentinelWritten : Bool
  exited : Option Nat

/-- `_sigterm_handler(signum, frame)`: no-op when already shutting down;
otherwise set the guard, emit the fixed signal-termination `error` event,
write the sentinel when file output is configured (`_done_file` set), and
exit with `128 + signum`. -/
def sigtermHandler (fileOutput : Bool) (signum : Nat) (s : SigState) : SigState :=
  if s.shuttingDown then s
  else
    { shuttingDown := true
      events := s.events ++ [.error "bridge terminated by signal"]
      sentinelWritten := s.sentinelWritten || fileOutput
      exited := some (128 + signum) }

/-! ## cc_bridge.py — Claude Agent SDK variant -/

/-- `_CORE_TOOLS`: tools whose invocations are forwarded to the Go host. -/
def CORE_TOOLS : List String := ["Write", "Edit", "Bash", "WebSearch", "NotebookEdit"]

/-- `_SKIP_TOOLS`: read-only / internal tools — always suppressed. -/
def SKIP_TOOLS : List String :=
  ["Read", "Glob", "Grep", "WebFetch", "Skill",
   "Task", "TaskCreate", "TaskUpdate", "TaskList", "TaskGet", "TaskStop", "TaskOutput"]

/-- `_base_name`: strip argument hints like `Bash(git *)` → `Bash`
(`tool_name.split("(")[0].strip()`). -/
def baseName (tool_name : String) : String :=
  pyStrip (pySplitHead tool_name '(')

/-- `_is_core`: unknown tools are forwarded for safety. -/
def isCore (tool_name : String) : Bool :=
  let base := baseName tool_name
  if CORE_TOOLS.contains base then true
  else if SKIP_TOOLS.contains base then false
  else true

/-- `_trim_args`.  In the `Bash` branch CPython applies `len`/slicing to
the `command` value; for a non-string value that would raise `TypeError`
inside the SDK's hook runner — the final catch-all branch totalises that
case via `str()`, and no theorem below depends on it. -/
def trimArgs (tool_name : String) (args : List (String × JVal)) : String :=
  let base := baseName tool_name
  if base = "Write" ∨ base = "Edit" then
    "file_path=" ++ pyStr (dictGetD args "file_path" (.str ""))
  else if base = "Bash" then
    match dictGetD args "command" (.str "") with
    | .str cmd => if pyLen cmd > 120 then "command=" ++ pyTake cmd 120 else "command=" ++ cmd
    | v => "command=" ++ pyStr v
  else if base = "WebSearch" then
    "query=" ++ pyStr (dictGetD args "query" (.str ""))
  else if base = "NotebookEdit" then
    "notebook=" ++ pyStr (dictGetD args "notebook_path" (.str ""))
  else
    joinSep ", " (((args.map Prod.fst).take 3).map (fun k => k ++ "=..."))

/-- `_extract_files`: string-valued, non-empty `file_path`/`path`/
`notebook_path` arguments. -/
def extractFiles (args : List (String × JVal)) : List String :=
  ["file_path", "path", "notebook_path"].filterMap fun k =>
    match args.lookup k with
    | some (.str s) => if s != "" then some s else none
    | _ => none

/-- The `input_data` of one `PostToolUse` hook callback (`tool_name` and
`tool_input`; `tool_use_id` and `context` are unused by the hook). -/
structure Callback where
  tool_name : String
  tool_input : JVal

/-- `if not isinstance(args, dict): args = \x7b\x7d`. -/
def ccArgs : JVal → List (String × JVal)
  | .obj l => l
  | _ => []

/-- `_post_tool_hook` acting on the shared `_iteration` counter: the
counter is incremented first, unconditionally; the event is emitted only
for core tools. -/
def postToolHook (iteration : Nat) (cb : Callback) : Nat × Option Event :=
  let it := iteration + 1
  if isCore cb.tool_name then
    let args := ccArgs cb.tool_input
    (it, some (.tool cb.tool_name (trimArgs cb.tool_name args) (extractFiles args) it))
  else
    (it, none)

/-- One upstream occurrence during the SDK session, in emission order: a
tool-use hook callback, a `ResultMessage` delivered by
`receive_response`, or any other message (ignored by the driver). -/
inductive SDKMsg where
  | toolUse (cb : Callback)
  | resultMsg (result : String) (input_tokens output_tokens : Int) (total_cost_usd : JVal)
      (is_error : Bool)
  | other

/-- The SDK session as observed by `main`: it either completes after
delivering its messages, or raises an exception after a prefix of them. -/
inductive BackendRun where
  | ok (msgs : List SDKMsg)
  | raiseAfter (msgs : List SDKMsg) (msg : String)

/-- The driver loop of `main` (hook firings plus the
`receive_response` loop), from iteration counter `n`: returns the final
counter and the emitted events. -/
def ccBackendFrom (n : Nat) : List SDKMsg → Nat × List Event
  | [] => (n, [])
  | .toolUse cb :: rest =>
    let step := postToolHook n cb
    let tail := ccBackendFrom step.1 rest
    (tail.1, step.2.toList ++ tail.2)
  | .resultMsg r tin tout cost ie :: rest =>
    let tail := ccBackendFrom n rest
    (tail.1, .result (.str r) (tin + tout) cost n ie :: tail.2)
  | .other :: rest => ccBackendFrom n rest

/-- The driver loop started from `_iteration = 0`. -/
def ccBackend (msgs : List SDKMsg) : Nat × List Event :=
  ccBackendFrom 0 msgs

/-- The plan-mode directive appended to the prompt (same literal in both
bridges). -/
def planDirective : String :=
  "\n\n[Plan Mode]\nProvide an implementation plan only. " ++
  "Do not modify files or execute destructive operations."

/-- `str(cfg.get("execution_mode", "execute") or "execute").strip().lower()`
(same expression in both bridges). -/
def executionMode (cfg : List (String × JVal)) : String :=
  pyLower (pyStrip (pyStr (pyOr (dictGetD cfg "execution_mode" (.str "execute")) (.str "execute"))))

/-- The plan-mode prompt augmentation.  `none` models the `TypeError`
CPython raises when concatenating a non-string prompt with the directive. -/
def planPrompt (execution_mode : String) (prompt : JVal) : Option JVal :=
  if execution_mode = "plan" then
    match prompt with
    | .str s => some (.str (s ++ planDirective))
    | _ => none
  else some prompt

/-- `x or None` as used on the optional `ClaudeAgentOptions` knobs:
a falsy config value becomes Python `None` (`Option.none`). -/
def optOr (v : JVal) : Option JVal := if v.truthy then some v else none

/-- The backend options the SDK variant computes (`ClaudeAgentOptions`
construction plus the permission/mode mapping and the plan-mode prompt
augmentation of `main`). -/
structure CCOpts where
  model : Option JVal
  max_turns : Option JVal
  max_budget_usd : Option JVal
  cwd : JVal
  permission_mode : String
  allowed_tools : Option JVal
  mcp_servers : Option JVal
  prompt : Option JVal

/-- Lines 169–208 plus 210–216 of `cc_bridge.py`: option construction,
execution-mode normalisation, permission mapping and plan-mode prompt
augmentation, for a parsed JSON-object config.  `cwd` is the process
working directory returned by `os.getcwd()`. -/
def ccOptions (cwd : String) (cfg : List (String × JVal)) : CCOpts :=
  let em := executionMode cfg
  let mode0 := dictGetD cfg "mode" (.str "interactive")
  let mode := if em = "plan" then JVal.str "autonomous" else mode0
  let permTriple : String × Option JVal × Option JVal :=
    if mode.eqStr "autonomous" then
      let allowed := dictGet cfg "allowed_tools"
      if allowed.truthy then
        ("bypassPermissions", some allowed, none)
      else if em = "plan" then
        ("bypassPermissions",
         some (.arr [.str "Read", .str "Glob", .str "Grep", .str "WebSearch"]), none)
      else
        ("bypassPermissions", none, none)
    else
      let perm_cfg := dictGet cfg "permission_mcp_config"
      if perm_cfg.truthy then ("default", none, some perm_cfg)
      else ("default", none, none)
  { model := optOr (dictGet cfg "model")
    max_turns := optOr (dictGet cfg "max_turns")
    max_budget_usd := optOr (dictGet cfg "max_budget_usd")
    cwd := pyOr (dictGet cfg "working_dir") (.str cwd)
    permission_mode := permTriple.1
    allowed_tools := permTriple.2.1
    mcp_servers := permTriple.2.2
    prompt := planPrompt em (dictGetD cfg "prompt" (.str "")) }

/-- `main()` of `cc_bridge.py` as a function of its inputs: whether
`--output-file` was given, the process working directory, the stdin
line, the `json.loads` outcome for that line, and the SDK session.
A `.ok (.num _)`-style non-object config reaches `cfg.get(...)` and
raises an uncaught `AttributeError`. -/
def ccMain (fileOutput : Bool) (cwd : String) (raw : String)
    (parse : Except String JVal) (bk : BackendRun) : RunOutcome :=
  if pyStrip raw = "" then
    ⟨[.error "empty config on stdin"], fileOutput, .exitCode 1⟩
  else
    match parse with
    | .error e => ⟨[.error ("invalid config JSON: " ++ e)], fileOutput, .exitCode 1⟩
    | .ok (.obj cfg) =>
      let prompt0 := dictGetD cfg "prompt" (.str "")
      if prompt0.truthy then
        match (ccOptions cwd cfg).prompt with
        | none => ⟨[], false, .uncaught "TypeError"⟩
        | some _ =>
          match bk with
          | .ok msgs => ⟨(ccBackend msgs).2, fileOutput, .normal⟩
          | .raiseAfter msgs m =>
            ⟨(ccBackend msgs).2 ++ [.error m], fileOutput, .exitCode 1⟩
      else
        ⟨[.error "prompt is required"], fileOutput, .exitCode 1⟩
    | .ok _ => ⟨[], false, .uncaught "AttributeError"⟩

/-! ## codex_bridge.py — Codex CLI variant -/

/-- `_SKIP_TOOLS` of `codex_bridge.py`: read-only / noisy tools
suppressed from progress events. -/
def CX_SKIP_TOOLS : List String := ["read", "glob", "grep", "webfetch", "web_fetch"]

/-- `_is_suppressed`: case-insensitive membership in the skip list. -/
def isSuppressed (tool_name : String) : Bool :=
  CX_SKIP_TOOLS.contains (pyLower tool_name)

/-- Python `s.index(pat)`: character index of the first occurrence of a
substring, `none` when absent. -/
def strFindIdx (s pat : String) : Option Nat :=
  (List.range (pyLen s + 1)).find? fun i =>
    decide ((s.data.drop i).take (pyLen pat) = pat.data)

/-- Python `pat in s`. -/
def strContains (s pat : String) : Bool :=
  (strFindIdx s pat).isSome

/-- Python `s.strip(c)` for a single strip character: drop all leading
and trailing occurrences of `c`. -/
def stripChar (c : Char) (s : String) : String :=
  String.mk (((s.data.dropWhile (· = c)).reverse.dropWhile (· = c)).reverse)

/-- The running state of the codex stream-parsing loop: the iteration
counter, token totals, last recorded agent answer, and emitted events. -/
structure CxState where
  iteration : Nat
  total_input_tokens : Int
  total_output_tokens : Int
  last_answer : JVal
  events : List Event

/-- Loop state at entry of the stream loop (`iteration = 0`,
`last_answer = ""`). -/
def cxInit : CxState :=
  { iteration := 0, total_input_tokens := 0, total_output_tokens := 0
    last_answer := .str "", events := [] }

/-- `_handle_item_started`: `command_execution` items always increment
the counter and forward a `Bash` tool event (with shell-wrapper
stripping and 120-character truncation of the summary);
`mcpToolCall` items increment and forward only when not suppressed.
The `some exn` component models an `AttributeError` raised by a string
method on a non-string value (caught by `main`'s `except Exception`). -/
def handleItemStarted (item : JVal) (st : CxState) : CxState × Option String :=
  match item with
  | .obj fields =>
    let item_type := dictGetD fields "type" (.str "")
    if item_type.eqStr "command_execution" then
      match dictGetD fields "command" (.str "") with
      | .str cmd0 =>
        let cmd :=
          if pyStartsWith cmd0 "/bin/" && strContains cmd0 " -lc " then
            stripChar (Char.ofNat 34) (pyStrip (pyDrop cmd0 ((strFindIdx cmd0 " -lc ").getD 0 + 5)))
          else cmd0
        let summary := if pyLen cmd > 120 then "command=" ++ pyTake cmd 120 else "command=" ++ cmd
        let it := st.iteration + 1
        ({ st with iteration := it, events := st.events ++ [.tool "Bash" summary [] it] }, none)
      | _ => (st, some "AttributeError: startswith")
    else if item_type.eqStr "mcpToolCall" then
      match dictGetD fields "tool" (.str "") with
      | .str tool =>
        if isSuppressed tool then (st, none)
        else
          let it := st.iteration + 1
          ({ st with iteration := it, events := st.events ++ [.tool tool "" [] it] }, none)
      | _ => (st, some "AttributeError: lower")
    else (st, none)
  | _ => (st, some "AttributeError: get")

/-- One parsed stdout line of the codex child inside the stream loop
(`item.started` / `item.completed` / `turn.completed` dispatch). -/
def cxStepEvent (ev : JVal) (st : CxState) : CxState × Option String :=
  match ev with
  | .obj fields =>
    let event_type := dictGetD fields "type" (.str "")
    if event_type.eqStr "item.started" then
      handleItemStarted (dictGetD fields "item" (.obj [])) st
    else if event_type.eqStr "item.completed" then
      match dictGetD fields "item" (.obj []) with
      | .obj ifields =>
        if (dictGet ifields "type").eqStr "agent_message" then
          let text := dictGetD ifields "text" (.str "")
          if text.truthy then ({ st with last_answer := text }, none) else (st, none)
        else (st, none)
      | _ => (st, some "AttributeError: get")
    else if event_type.eqStr "turn.completed" then
      match dictGetD fields "usage" (.obj []) with
      | .obj ufields =>
        match dictGetD ufields "input_tokens" (.num 0), dictGetD ufields "output_tokens" (.num 0) with
        | .num i, .num o =>
          ({ st with total_input_tokens := st.total_input_tokens + i
                     total_output_tokens := st.total_output_tokens + o }, none)
        | _, _ => (st, some "TypeError: unsupported operand")
      | _ => (st, some "AttributeError: get")
    else (st, none)
  | _ => (st, some "AttributeError: get")

/-- The stream loop over the child's stdout.  A `none` line is one that
was blank or failed JSON parsing (silently skipped).  Returns the final
state and `some exn` when an exception aborted the loop. -/
def cxLoop (st : CxState) : List (Option JVal) → CxState × Option String
  | [] => (st, none)
  | none :: rest => cxLoop st rest
  | some ev :: rest =>
    match cxStepEvent ev st with
    | (st2, none) => cxLoop st2 rest
    | (st2, some m) => (st2, some m)

/-- The settings and `codex exec` command vector computed by
`codex_bridge.py`'s `main` for a parsed JSON-object config.  Elements of
the argument vector are the Python values placed in the list.  `prompt`
and `cmd` are `none` when the plan-mode prompt concatenation raises
`TypeError`. -/
structure CodexSettings where
  binary : String
  sandbox : JVal
  approval : JVal
  prompt : Option JVal
  cmd : Option (List JVal)

/-- `str(cfg.get("autonomy_level", "controlled") or "controlled").strip().lower()`. -/
def autonomyLevel (cfg : List (String × JVal)) : String :=
  pyLower (pyStrip (pyStr (pyOr (dictGetD cfg "autonomy_level" (.str "controlled")) (.str "controlled"))))

/-- `codex_binary = str(cfg.get("binary") or "codex").strip() or "codex"`. -/
def codexBinary (cfg : List (String × JVal)) : String :=
  let binary0 := pyStrip (pyStr (pyOr (dictGet cfg "binary") (.str "codex")))
  if binary0 = "" then "codex" else binary0

/-- `cmd = [codex_binary, "exec", "--json"]` plus the optional
`--model` extension. -/
def codexCmd1 (cfg : List (String × JVal)) : List JVal :=
  let cmd0 : List JVal := [.str (codexBinary cfg), .str "exec", .str "--json"]
  let model := dictGet cfg "model"
  if model.truthy then cmd0 ++ [.str "--model", model] else cmd0

/-- The derived sandbox value: explicit config value if truthy, else
`read-only` in plan mode, else `danger-full-access` under full
autonomy, else the falsy config value (flag omitted). -/
def codexSandbox (cfg : List (String × JVal)) : JVal :=
  let sandbox0 := dictGet cfg "sandbox"
  if !sandbox0.truthy && executionMode cfg == "plan" then JVal.str "read-only"
  else if !sandbox0.truthy && autonomyLevel cfg == "full" then JVal.str "danger-full-access"
  else sandbox0

/-- `cmd` after the conditional `--sandbox` extension. -/
def codexCmd2 (cfg : List (String × JVal)) : List JVal :=
  if (codexSandbox cfg).truthy then codexCmd1 cfg ++ [.str "--sandbox", codexSandbox cfg]
  else codexCmd1 cfg

/-- The derived approval policy: explicit config value if truthy, else
`never` in plan mode or under full autonomy. -/
def codexApproval (cfg : List (String × JVal)) : JVal :=
  let approval0 := dictGetD cfg "approval_policy" (.str "")
  if !approval0.truthy && executionMode cfg == "plan" then JVal.str "never"
  else if !approval0.truthy && autonomyLevel cfg == "full" then JVal.str "never"
  else approval0

/-- `cmd` after the approval-policy switch mapping (`--full-auto` /
`--dangerously-bypass-approvals-and-sandbox`, otherwise omitted). -/
def codexCmd3 (cfg : List (String × JVal)) : List JVal :=
  if (codexApproval cfg).eqStr "full-auto" then codexCmd2 cfg ++ [.str "--full-auto"]
  else if (codexApproval cfg).eqStr "dangerously-auto" then
    codexCmd2 cfg ++ [.str "--dangerously-bypass-approvals-and-sandbox"]
  else codexCmd2 cfg

/-- `cmd` after the working-directory flags. -/
def codexCmd4 (cwd : String) (cfg : List (String × JVal)) : List JVal :=
  codexCmd3 cfg ++ [.str "-C", pyOr (dictGet cfg "working_dir") (.str cwd), .str "--skip-git-repo-check"]

/-- Lines 150–193 of `codex_bridge.py`: prompt augmentation, binary
resolution, and command-vector construction.  `cwd` is `os.getcwd()`. -/
def codexSettings (cwd : String) (cfg : List (String × JVal)) : CodexSettings :=
  { binary := codexBinary cfg
    sandbox := codexSandbox cfg
    approval := codexApproval cfg
    prompt := planPrompt (executionMode cfg) (dictGetD cfg "prompt" (.str ""))
    cmd := (planPrompt (executionMode cfg) (dictGetD cfg "prompt" (.str ""))).map
      fun p => codexCmd4 cwd cfg ++ [.str "--", p] }

/-- The codex child process as observed by `main`: spawn failure
(`FileNotFoundError`), some other exception raised by the supervision
code, or a run delivering parsed stdout lines, an exit code and captured
stderr. -/
inductive CodexBackend where
  | notFound
  | raiseExc (msg : String)
  | run (lines : List (Option JVal)) (returncode : Int) (stderr : String)

/-- `main()` of `codex_bridge.py` as a function of its inputs.  Note the
non-zero-returncode branch: `sys.exit(1)` raises `SystemExit`, which
`except Exception` does not catch, so the process exits 1 *without*
writing the sentinel. -/
def codexMain (fileOutput : Bool) (cwd : String) (raw : String)
    (parse : Except String JVal) (bk : CodexBackend) : RunOutcome :=
  if pyStrip raw = "" then
    ⟨[.error "empty config on stdin"], fileOutput, .exitCode 1⟩
  else
    match parse with
    | .error e => ⟨[.error ("invalid config JSON: " ++ e)], fileOutput, .exitCode 1⟩
    | .ok (.obj cfg) =>
      let prompt0 := dictGetD cfg "prompt" (.str "")
      if prompt0.truthy then
        let s := codexSettings cwd cfg
        match s.cmd with
        | none => ⟨[], false, .uncaught "TypeError"⟩
        | some _ =>
          match bk with
          | .notFound =>
            ⟨[.error ("codex binary not found: " ++ s.binary)], fileOutput, .exitCode 1⟩
          | .raiseExc m => ⟨[.error m], fileOutput, .exitCode 1⟩
          | .run lines rc stderr =>
            match cxLoop cxInit lines with
            | (st, some m) => ⟨st.events ++ [.error m], fileOutput, .exitCode 1⟩
            | (st, none) =>
              if rc ≠ 0 then
                ⟨st.events ++
                   [.error ("codex exited with code " ++ toString rc ++ ": " ++ pyTake stderr 400)],
                 false, .exitCode 1⟩
              else
                ⟨st.events ++
                   [.result st.last_answer (st.total_input_tokens + st.total_output_tokens)
                      (.num 0) st.iteration false],
                 fileOutput, .normal⟩
      else
        ⟨[.error "prompt is required"], fileOutput, .exitCode 1⟩
    | .ok _ => ⟨[], false, .uncaught "AttributeError"⟩


/-! ## Basic lemmas about the embedded operations -/

theorem postToolHook_fst (n : Nat) (cb : Callback) : (postToolHook n cb).1 = n + 1 := by
  unfold postToolHook
  split <;> rfl

theorem postToolHook_core (n : Nat) (cb : Callback) (h : isCore cb.tool_name = true) :
    postToolHook n cb =
      (n + 1, some (.tool cb.tool_name (trimArgs cb.tool_name (ccArgs cb.tool_input))
        (extractFiles (ccArgs cb.tool_input)) (n + 1))) := by
  unfold postToolHook
  simp [h]

theorem postToolHook_skip (n : Nat) (cb : Callback) (h : isCore cb.tool_name = false) :
    postToolHook n cb = (n + 1, none) := by
  unfold postToolHook
  simp [h]

theorem postToolHook_no_terminal (n : Nat) (cb : Callback) :
    (postToolHook n cb).2.toList.countP Event.isTerminal = 0 := by
  unfold postToolHook
  split <;> simp [Event.isTerminal]

theorem planPrompt_str (em s : String) :
    planPrompt em (.str s) =
      some (.str (if em = "plan" then s ++ planDirective else s)) := by
  unfold planPrompt
  split <;> simp_all

theorem ccOptions_prompt (cwd : String) (cfg : List (String × JVal)) :
    (ccOptions cwd cfg).prompt =
      planPrompt (executionMode cfg) (dictGetD cfg "prompt" (.str "")) := rfl

theorem codexSettings_prompt (cwd : String) (cfg : List (String × JVal)) :
    (codexSettings cwd cfg).prompt =
      planPrompt (executionMode cfg) (dictGetD cfg "prompt" (.str "")) := rfl

/-- `SDKMsg.isResult`: is this message the SDK's `ResultMessage`? -/
def SDKMsg.isResult : SDKMsg → Bool
  | .resultMsg _ _ _ _ _ => true
  | _ => false

theorem ccBackendFrom_countTerminal (msgs : List SDKMsg) (n : Nat) :
    (ccBackendFrom n msgs).2.countP Event.isTerminal = msgs.countP SDKMsg.isResult := by
  induction msgs generalizing n with
  | nil => simp [ccBackendFrom]
  | cons m rest ih =>
    cases m with
    | toolUse cb =>
      simp [ccBackendFrom, List.countP_append, postToolHook_no_terminal, ih,
        List.countP_cons, SDKMsg.isResult]
    | resultMsg r tin tout cost ie =>
      simp [ccBackendFrom, List.countP_cons, Event.isTerminal, SDKMsg.isResult, ih]
    | other =>
      simp [ccBackendFrom, List.countP_cons, SDKMsg.isResult, ih]

theorem handleItemStarted_countTerminal (item : JVal) (st : CxState) :
    (handleItemStarted item st).1.events.countP Event.isTerminal =
      st.events.countP Event.isTerminal := by
  cases item with
  | obj fields =>
    simp only [handleItemStarted]
    by_cases h1 : (dictGetD fields "type" (.str "")).eqStr "command_execution" = true
    · simp only [h1, if_true]
      rcases hcmd : dictGetD fields "command" (.str "") with _ | b | n | cmd | l | o <;>
        simp [List.countP_append, Event.isTerminal]
    · simp only [h1, if_false]
      by_cases h2 : (dictGetD fields "type" (.str "")).eqStr "mcpToolCall" = true
      · simp only [h2, if_true]
        rcases htool : dictGetD fields "tool" (.str "") with _ | b | n | tool | l | o <;>
          try rfl
        by_cases h3 : isSuppressed tool = true <;>
          simp [h3, List.countP_append, Event.isTerminal]
      · simp [h1, h2]
  | null => rfl
  | bool b => rfl
  | num n => rfl
  | str s => rfl
  | arr l => rfl

theorem cxStepEvent_countTerminal (ev : JVal) (st : CxState) :
    (cxStepEvent ev st).1.events.countP Event.isTerminal =
      st.events.countP Event.isTerminal := by
  cases ev with
  | obj fields =>
    simp only [cxStepEvent]
    by_cases h1 : (dictGetD fields "type" (.str "")).eqStr "item.started" = true
    · simp only [h1, if_true]
      exact handleItemStarted_countTerminal _ _
    · simp only [h1, if_false]
      by_cases h2 : (dictGetD fields "type" (.str "")).eqStr "item.completed" = true
      · simp only [h2, if_true]
        rcases hitem : dictGetD fields "item" (.obj []) with _ | b | n | s | l | ifields <;>
          try rfl
        by_cases h4 : (dictGet ifields "type").eqStr "agent_message" = true
        · simp only [h4, if_true]
          by_cases h5 : (dictGetD ifields "text" (.str "")).truthy = true <;> simp [h5]
        · simp [h4]
      · simp only [h2, if_false]
        by_cases h3 : (dictGetD fields "type" (.str "")).eqStr "turn.completed" = true
        · simp only [h3, if_true]
          rcases hu : dictGetD fields "usage" (.obj []) with _ | b | n | s | l | ufields <;>
            try rfl
          rcases hi : dictGetD ufields "input_tokens" (.num 0) with _ | b | n | s | l | o <;>
            rcases ho : dictGetD ufields "output_tokens" (.num 0) with _ | b2 | n2 | s2 | l2 | o2 <;>
            simp [hi, ho]
        · simp [h1, h2, h3]
  | null => rfl
  | bool b => rfl
  | num n => rfl
  | str s => rfl
  | arr l => rfl

theorem cxLoop_countTerminal (lines : List (Option JVal)) (st : CxState) :
    (cxLoop st lines).1.events.countP Event.isTerminal =
      st.events.countP Event.isTerminal := by
  induction lines generalizing st with
  | nil => rfl
  | cons l rest ih =>
    cases l with
    | none => exact ih st
    | some ev =>
      have hstep := cxStepEvent_countTerminal ev st
      simp only [cxLoop]
      rcases h : cxStepEvent ev st with ⟨st2, e⟩
      rw [h] at hstep
      cases e with
      | none => simpa [hstep] using ih st2
      | some m => simpa using hstep

theorem isPrefixOf_append_self (l m : List Char) : l.isPrefixOf (l ++ m) = true := by
  induction l with
  | nil => simp [List.isPrefixOf]
  | cons a as ih => simp [List.isPrefixOf, ih]

theorem pyStartsWith_append (pre s : String) : pyStartsWith (pre ++ s) pre = true := by
  have h : (pre ++ s).data = pre.data ++ s.data := rfl
  simp only [pyStartsWith, h]
  exact isPrefixOf_append_self _ _

/-! ## Claim theorems -/

/-- C1 (code_bug evaluation): with `--output-file` in effect, a codex
child exiting with a non-zero code makes the bridge emit the error event
and exit 1 *without* creating the `.done` sentinel, while the sibling
exit paths (normal completion, spawn failure) of the very same
configuration do create it. -/
theorem C1_codex_nonzero_exit_skips_sentinel :
    (codexMain true "/tmp/x" "\x7b\"prompt\": \"hi\"\x7d"
        (.ok (.obj [("prompt", .str "hi")])) (.run [] 2 "boom") =
      ⟨[.error "codex exited with code 2: boom"], false, .exitCode 1⟩) ∧
    (codexMain true "/tmp/x" "\x7b\"prompt\": \"hi\"\x7d"
        (.ok (.obj [("prompt", .str "hi")])) (.run [] 0 "")).sentinelWritten = true ∧
    (codexMain true "/tmp/x" "\x7b\"prompt\": \"hi\"\x7d"
        (.ok (.obj [("prompt", .str "hi")])) .notFound).sentinelWritten = true :=
  ⟨rfl, rfl, rfl⟩

/-- C7: config intake in both variants — an empty/whitespace stdin line
yields exactly one `error` event "empty config on stdin" and exit 1; a
non-JSON line yields exactly one `error` event embedding the parse
failure detail and exit 1; a parsed object with a falsy prompt yields
exactly one `error` event "prompt is required" and exit 1 — in every
case independently of (hence before) any backend work. -/
theorem C7_config_intake (fileOutput : Bool) (cwd raw : String)
    (parse : Except String JVal) (bkc : BackendRun) (bkx : CodexBackend) :
    (pyStrip raw = "" →
      ccMain fileOutput cwd raw parse bkc =
        ⟨[.error "empty config on stdin"], fileOutput, .exitCode 1⟩ ∧
      codexMain fileOutput cwd raw parse bkx =
        ⟨[.error "empty config on stdin"], fileOutput, .exitCode 1⟩) ∧
    (∀ e, pyStrip raw ≠ "" → parse = .error e →
      ccMain fileOutput cwd raw parse bkc =
        ⟨[.error ("invalid config JSON: " ++ e)], fileOutput, .exitCode 1⟩ ∧
      codexMain fileOutput cwd raw parse bkx =
        ⟨[.error ("invalid config JSON: " ++ e)], fileOutput, .exitCode 1⟩) ∧
    (∀ cfg, pyStrip raw ≠ "" → parse = .ok (.obj cfg) →
      (dictGetD cfg "prompt" (.str "")).truthy = false →
      ccMain fileOutput cwd raw parse bkc =
        ⟨[.error "prompt is required"], fileOutput, .exitCode 1⟩ ∧
      codexMain fileOutput cwd raw parse bkx =
        ⟨[.error "prompt is required"], fileOutput, .exitCode 1⟩) := by
  refine ⟨fun h => ?_, fun e h he => ?_, fun cfg h hp hf => ?_⟩
  · constructor <;> simp [ccMain, codexMain, h]
  · subst he
    constructor <;> simp [ccMain, codexMain, h]
  · subst hp
    constructor <;> simp [ccMain, codexMain, h, hf]

theorem C7_config_intake_witness :
    pyStrip "  " = "" ∧
    (ccMain true "/w" "  " (.error "x") (.ok []) =
        ⟨[.error "empty config on stdin"], true, .exitCode 1⟩ ∧
      codexMain true "/w" "  " (.error "x") (.run [] 0 "") =
        ⟨[.error "empty config on stdin"], true, .exitCode 1⟩) :=
  ⟨rfl, (C7_config_intake true "/w" "  " (.error "x") (.ok []) (.run [] 0 "")).1 rfl⟩

/-- C8: on a termination signal while running, the handler emits exactly
one `error` event with the fixed message, records the sentinel when file
output is configured, exits with `128 + signum`, and a second signal
delivered afterwards is a no-op: the guard transitions once and
irreversibly. -/
theorem C8_signal_handler (fo fo2 : Bool) (n n2 : Nat) (s : SigState)
    (h : s.shuttingDown = false) :
    (sigtermHandler fo n s).events = s.events ++ [.error "bridge terminated by signal"] ∧
    (sigtermHandler fo n s).exited = some (128 + n) ∧
    (sigtermHandler fo n s).sentinelWritten = (s.sentinelWritten || fo) ∧
    (sigtermHandler fo n s).shuttingDown = true ∧
    sigtermHandler fo2 n2 (sigtermHandler fo n s) = sigtermHandler fo n s := by
  simp [sigtermHandler, h]

theorem C8_signal_handler_witness :
    (SigState.mk false [] false none).shuttingDown = false ∧
    ((sigtermHandler true 15 (SigState.mk false [] false none)).events =
        [] ++ [.error "bridge terminated by signal"] ∧
      (sigtermHandler true 15 (SigState.mk false [] false none)).exited = some (128 + 15) ∧
      (sigtermHandler true 15 (SigState.mk false [] false none)).sentinelWritten = (false || true) ∧
      (sigtermHandler true 15 (SigState.mk false [] false none)).shuttingDown = true ∧
      sigtermHandler false 9 (sigtermHandler true 15 (SigState.mk false [] false none)) =
        sigtermHandler true 15 (SigState.mk false [] false none)) :=
  ⟨rfl, C8_signal_handler true false 15 9 (SigState.mk false [] false none) rfl⟩

theorem codexSettings_cmd_isSome (cwd : String) (cfg : List (String × JVal)) :
    (codexSettings cwd cfg).cmd.isSome = (codexSettings cwd cfg).prompt.isSome := by
  simp only [codexSettings]
  cases planPrompt (executionMode cfg) (dictGetD cfg "prompt" (.str "")) <;> simp

/-- C3 (counterexample): the stdin line `42` is valid JSON but not an
object; in both variants `cfg.get(...)` is called on the parsed integer
and an uncaught `AttributeError` escapes `main` — no event is emitted,
no sentinel is written. -/
theorem C3_counterexample :
    (ccMain true "/w" "42" (.ok (.num 42)) (.ok [])).term = .uncaught "AttributeError" ∧
    (ccMain true "/w" "42" (.ok (.num 42)) (.ok [])).events = [] ∧
    (ccMain true "/w" "42" (.ok (.num 42)) (.ok [])).sentinelWritten = false ∧
    (codexMain true "/w" "42" (.ok (.num 42)) (.run [] 0 "")).term = .uncaught "AttributeError" ∧
    (codexMain true "/w" "42" (.ok (.num 42)) (.run [] 0 "")).events = [] :=
  ⟨rfl, rfl, rfl, rfl, rfl⟩

/-- A config whose prompt, when present and truthy, is a string — the
shape under which the plan-mode prompt concatenation cannot raise
`TypeError`. -/
def SafePrompt (cfg : List (String × JVal)) : Prop :=
  ∀ v, cfg.lookup "prompt" = some v → v.truthy = true → ∃ s, v = JVal.str s

theorem safePrompt_str (cfg : List (String × JVal))
    (h : SafePrompt cfg) (ht : (dictGetD cfg "prompt" (.str "")).truthy = true) :
    ∃ s, dictGetD cfg "prompt" (.str "") = .str s := by
  unfold dictGetD at ht ⊢
  cases hl : cfg.lookup "prompt" with
  | none => exact ⟨"", rfl⟩
  | some v =>
    rw [hl] at ht
    exact h v hl ht

/-- C3 (amended): for every stdin line that is empty/whitespace, fails
JSON parsing, or parses to a JSON *object* (whose prompt, if truthy, is
a string), both variants terminate without an uncaught exception, for
every behaviour of the backend. -/
theorem C3_amended_no_uncaught (fileOutput : Bool) (cwd raw : String)
    (parse : Except String JVal) (bkc : BackendRun) (bkx : CodexBackend)
    (h : pyStrip raw = "" ∨ (∃ e, parse = .error e) ∨
      (∃ cfg, parse = .ok (.obj cfg) ∧ SafePrompt cfg)) :
    (∀ m, (ccMain fileOutput cwd raw parse bkc).term ≠ .uncaught m) ∧
    (∀ m, (codexMain fileOutput cwd raw parse bkx).term ≠ .uncaught m) := by
  rcases h with h | ⟨e, he⟩ | ⟨cfg, hpe, hs⟩
  · constructor <;> intro m <;> simp [ccMain, codexMain, h]
  · subst he
    by_cases hr : pyStrip raw = "" <;>
      constructor <;> intro m <;> simp [ccMain, codexMain, hr]
  · subst hpe
    by_cases hr : pyStrip raw = ""
    · constructor <;> intro m <;> simp [ccMain, codexMain, hr]
    · by_cases ht : (dictGetD cfg "prompt" (.str "")).truthy = true
      · obtain ⟨s, hstr⟩ := safePrompt_str cfg hs ht
        obtain ⟨t, hplan⟩ : ∃ t, planPrompt (executionMode cfg) (dictGetD cfg "prompt" (.str "")) =
            some (.str t) := by
          rw [hstr, planPrompt_str]
          exact ⟨_, rfl⟩
        have hcc : (ccOptions cwd cfg).prompt =
            planPrompt (executionMode cfg) (dictGetD cfg "prompt" (.str "")) := rfl
        obtain ⟨l, hl⟩ : ∃ l, (codexSettings cwd cfg).cmd = some l := by
          rw [← Option.isSome_iff_exists, codexSettings_cmd_isSome, codexSettings_prompt, hplan]
          rfl
        constructor <;> intro m
        · cases bkc <;> simp [ccMain, hr, ht, hcc, hplan]
        · cases bkx with
          | notFound => simp [codexMain, hr, ht, hl]
          | raiseExc me => simp [codexMain, hr, ht, hl]
          | run lines rc stderr =>
            rcases hloop : cxLoop cxInit lines with ⟨stF, exn⟩
            cases exn <;> by_cases hrc : rc = 0 <;>
              simp [codexMain, hr, ht, hl, hloop, hrc]
      · constructor <;> intro m <;> simp [ccMain, codexMain, hr, ht]

theorem c3SafePromptHi : SafePrompt [("prompt", JVal.str "hi")] := by
  intro v hv htr
  simp [List.lookup] at hv
  exact ⟨"hi", hv.symm⟩

theorem C3_amended_no_uncaught_witness :
    (pyStrip "x" = "" ∨
      (∃ e, (Except.ok (JVal.obj [("prompt", JVal.str "hi")]) : Except String JVal) = .error e) ∨
      (∃ cfg, (Except.ok (JVal.obj [("prompt", JVal.str "hi")]) : Except String JVal) =
          .ok (.obj cfg) ∧ SafePrompt cfg)) ∧
    ((∀ m, (ccMain true "/w" "x" (.ok (.obj [("prompt", JVal.str "hi")])) (.ok [])).term ≠
        .uncaught m) ∧
      (∀ m, (codexMain true "/w" "x" (.ok (.obj [("prompt", JVal.str "hi")]))
          (.run [] 0 "")).term ≠ .uncaught m)) :=
  ⟨Or.inr (Or.inr ⟨[("prompt", JVal.str "hi")], rfl, c3SafePromptHi⟩),
    C3_amended_no_uncaught true "/w" "x" (.ok (.obj [("prompt", JVal.str "hi")]))
      (.ok []) (.run [] 0 "")
      (Or.inr (Or.inr ⟨[("prompt", JVal.str "hi")], rfl, c3SafePromptHi⟩))⟩

/-- C4 (counterexample): for the hook callback named `Bash(git status)`,
the forwarded event's `tool_name` field is the raw name
`"Bash(git status)"`, not the stripped base name `"Bash"` asserted by
the claim; the summary does begin with `command=`. -/
theorem C4_counterexample :
    (postToolHook 0 ⟨"Bash(git status)", .obj [("command", .str "git status")]⟩).2 =
      some (.tool "Bash(git status)" "command=git status" [] 1) ∧
    "Bash(git status)" ≠ "Bash" :=
  ⟨rfl, by decide⟩

/-- C4 (amended): for every forwarded SDK-variant callback, the event's
`tool_name` equals the raw upstream name — base-name stripping applies
only to forward/suppress classification and to the summary computation —
and when the stripped base name is `Bash` (with a string `command`
argument) the summary begins with `command=`. -/
theorem C4_amended_raw_name_and_summary (it : Nat) (cb : Callback)
    (hcore : isCore cb.tool_name = true)
    (hcmd : baseName cb.tool_name = "Bash" →
      ∃ c, dictGetD (ccArgs cb.tool_input) "command" (.str "") = .str c) :
    ∃ s fs, (postToolHook it cb).2 = some (.tool cb.tool_name s fs (it + 1)) ∧
      (baseName cb.tool_name = "Bash" → pyStartsWith s "command=" = true) := by
  refine ⟨trimArgs cb.tool_name (ccArgs cb.tool_input),
    extractFiles (ccArgs cb.tool_input), ?_, ?_⟩
  · rw [postToolHook_core it cb hcore]
  · intro hb
    obtain ⟨c, hc⟩ := hcmd hb
    have h1 : ¬("Bash" = "Write" ∨ "Bash" = "Edit") := by decide
    simp only [trimArgs, hb, hc, h1, if_false, if_true]
    split <;> exact pyStartsWith_append _ _

theorem C4_amended_raw_name_and_summary_witness :
    isCore "Bash(git status)" = true ∧
    (∃ s fs,
      (postToolHook 4 ⟨"Bash(git status)", .obj [("command", .str "git status")]⟩).2 =
        some (.tool "Bash(git status)" s fs (4 + 1)) ∧
      (baseName "Bash(git status)" = "Bash" → pyStartsWith s "command=" = true)) :=
  ⟨rfl, C4_amended_raw_name_and_summary 4
    ⟨"Bash(git status)", .obj [("command", .str "git status")]⟩ rfl
    (fun _ => ⟨"git status", rfl⟩)⟩

/-- C10: in the SDK variant, falsy optional knobs are coerced to absent:
`max_turns == 0` and `max_budget_usd == 0` become `None`, `model == ""`
becomes `None`, and `working_dir == ""` falls back to the process
working directory. -/
theorem C10_falsy_coercion (cwd : String) (cfg : List (String × JVal)) :
    (cfg.lookup "max_turns" = some (.num 0) → (ccOptions cwd cfg).max_turns = none) ∧
    (cfg.lookup "max_budget_usd" = some (.num 0) → (ccOptions cwd cfg).max_budget_usd = none) ∧
    (cfg.lookup "model" = some (.str "") → (ccOptions cwd cfg).model = none) ∧
    (cfg.lookup "working_dir" = some (.str "") → (ccOptions cwd cfg).cwd = .str cwd) := by
  refine ⟨fun h => ?_, fun h => ?_, fun h => ?_, fun h => ?_⟩ <;>
    simp [ccOptions, optOr, pyOr, dictGet, dictGetD, h, JVal.truthy]

/-- A config setting every falsy-coercible knob to its falsy value. -/
def c10cfg : List (String × JVal) :=
  [("prompt", .str "hi"), ("max_turns", .num 0), ("max_budget_usd", .num 0),
   ("model", .str ""), ("working_dir", .str "")]

theorem C10_falsy_coercion_witness :
    c10cfg.lookup "max_turns" = some (.num 0) ∧
    c10cfg.lookup "max_budget_usd" = some (.num 0) ∧
    c10cfg.lookup "model" = some (.str "") ∧
    c10cfg.lookup "working_dir" = some (.str "") ∧
    (ccOptions "/cwd" c10cfg).max_turns = none ∧
    (ccOptions "/cwd" c10cfg).max_budget_usd = none ∧
    (ccOptions "/cwd" c10cfg).model = none ∧
    (ccOptions "/cwd" c10cfg).cwd = .str "/cwd" :=
  ⟨rfl, rfl, rfl, rfl,
    (C10_falsy_coercion "/cwd" c10cfg).1 rfl,
    (C10_falsy_coercion "/cwd" c10cfg).2.1 rfl,
    (C10_falsy_coercion "/cwd" c10cfg).2.2.1 rfl,
    (C10_falsy_coercion "/cwd" c10cfg).2.2.2 rfl⟩

/-- The SDK-session contract assumed of the backend (external to this
repository): `receive_response` delivers exactly one `ResultMessage` on
normal completion, and a run that raises has not delivered one. -/
def BackendRun.wellBehaved : BackendRun → Prop
  | .ok msgs => msgs.countP SDKMsg.isResult = 1
  | .raiseAfter msgs _ => msgs.countP SDKMsg.isResult = 0

/-- C2: from a valid TaskConfig with a non-empty string prompt, a
signal-free run emits exactly one terminal event (`result` or `error`):
in the SDK variant for every well-behaved session (completed or
raising), and in the CLI variant for every child behaviour. -/
theorem C2_exactly_one_terminal (fileOutput : Bool) (cwd raw : String)
    (cfg : List (String × JVal)) (p : String)
    (bkc : BackendRun) (bkx : CodexBackend)
    (hr : pyStrip raw ≠ "")
    (hp : dictGetD cfg "prompt" (.str "") = .str p) (hne : p ≠ "")
    (hwb : bkc.wellBehaved) :
    (ccMain fileOutput cwd raw (.ok (.obj cfg)) bkc).events.countP Event.isTerminal = 1 ∧
    (codexMain fileOutput cwd raw (.ok (.obj cfg)) bkx).events.countP Event.isTerminal = 1 := by
  have ht : (dictGetD cfg "prompt" (.str "")).truthy = true := by
    rw [hp]
    simp [JVal.truthy, hne]
  obtain ⟨t, hplan⟩ : ∃ t,
      planPrompt (executionMode cfg) (dictGetD cfg "prompt" (.str "")) = some (.str t) := by
    rw [hp, planPrompt_str]
    exact ⟨_, rfl⟩
  have hcc : (ccOptions cwd cfg).prompt =
      planPrompt (executionMode cfg) (dictGetD cfg "prompt" (.str "")) := rfl
  obtain ⟨l, hl⟩ : ∃ l, (codexSettings cwd cfg).cmd = some l := by
    rw [← Option.isSome_iff_exists, codexSettings_cmd_isSome, codexSettings_prompt, hplan]
    rfl
  constructor
  · cases bkc with
    | ok msgs =>
      simp only [BackendRun.wellBehaved] at hwb
      simp [ccMain, hr, ht, hcc, hplan, ccBackend, ccBackendFrom_countTerminal, hwb]
    | raiseAfter msgs m =>
      simp only [BackendRun.wellBehaved] at hwb
      simp [ccMain, hr, ht, hcc, hplan, ccBackend, List.countP_append,
        ccBackendFrom_countTerminal, hwb, Event.isTerminal]
  · cases bkx with
    | notFound => simp [codexMain, hr, ht, hl, Event.isTerminal]
    | raiseExc me => simp [codexMain, hr, ht, hl, Event.isTerminal]
    | run lines rc stderr =>
      have hloopc := cxLoop_countTerminal lines cxInit
      rcases hloop : cxLoop cxInit lines with ⟨stF, exn⟩
      rw [hloop] at hloopc
      simp [cxInit] at hloopc
      cases exn <;> by_cases hrc : rc = 0 <;>
        simp [codexMain, hr, ht, hl, hloop, hrc, List.countP_append, Event.isTerminal, hloopc] <;>
        exact hloopc

theorem C2_exactly_one_terminal_witness :
    (pyStrip "x" ≠ "") ∧
    (dictGetD [("prompt", JVal.str "hi")] "prompt" (.str "") = .str "hi") ∧
    ("hi" ≠ "") ∧
    (BackendRun.ok [SDKMsg.resultMsg "ok" 1 2 (.num 0) false]).wellBehaved ∧
    ((ccMain false "/w" "x" (.ok (.obj [("prompt", JVal.str "hi")]))
        (.ok [SDKMsg.resultMsg "ok" 1 2 (.num 0) false])).events.countP Event.isTerminal = 1 ∧
      (codexMain false "/w" "x" (.ok (.obj [("prompt", JVal.str "hi")]))
        (.run [] 0 "")).events.countP Event.isTerminal = 1) :=
  ⟨by decide, rfl, by decide, by rfl,
    C2_exactly_one_terminal false "/w" "x" [("prompt", JVal.str "hi")] "hi"
      (.ok [SDKMsg.resultMsg "ok" 1 2 (.num 0) false]) (.run [] 0 "")
      (by decide) rfl (by decide) (by rfl)⟩

theorem codexCmd3_decomp (cfg : List (String × JVal)) :
    ∃ t, codexCmd3 cfg = codexCmd2 cfg ++ t := by
  unfold codexCmd3
  split
  · exact ⟨_, rfl⟩
  · split
    · exact ⟨_, rfl⟩
    · exact ⟨[], by simp⟩

/-- C9: with `execution_mode == "plan"` and a string prompt, both
variants append the plan-mode directive to the prompt; the SDK variant
sets `permission_mode = "bypassPermissions"` and — absent a
caller-supplied `allowed_tools` — restricts the allowed tools to the
read/search-only set; the CLI variant — absent an explicit `sandbox`
config value — computes `sandbox = "read-only"` and places
`--sandbox read-only` in the command vector, and — absent an explicit
approval policy — computes `approval = "never"`. -/
theorem C9_plan_mode (cwd : String) (cfg : List (String × JVal)) (p : String)
    (hm : executionMode cfg = "plan")
    (hp : dictGetD cfg "prompt" (.str "") = .str p) :
    (ccOptions cwd cfg).prompt = some (.str (p ++ planDirective)) ∧
    (ccOptions cwd cfg).permission_mode = "bypassPermissions" ∧
    ((dictGet cfg "allowed_tools").truthy = false →
      (ccOptions cwd cfg).allowed_tools =
        some (.arr [.str "Read", .str "Glob", .str "Grep", .str "WebSearch"])) ∧
    (codexSettings cwd cfg).prompt = some (.str (p ++ planDirective)) ∧
    ((dictGet cfg "sandbox").truthy = false →
      (codexSettings cwd cfg).sandbox = .str "read-only" ∧
      ∃ l1 l2, (codexSettings cwd cfg).cmd =
        some (l1 ++ [.str "--sandbox", .str "read-only"] ++ l2)) ∧
    ((dictGetD cfg "approval_policy" (.str "")).truthy = false →
      (codexSettings cwd cfg).approval = .str "never") := by
  have hplan : planPrompt (executionMode cfg) (dictGetD cfg "prompt" (.str "")) =
      some (.str (p ++ planDirective)) := by
    rw [hp, planPrompt_str, hm]
    simp
  refine ⟨?_, ?_, ?_, ?_, ?_, ?_⟩
  · rw [ccOptions_prompt, hplan]
  · by_cases ha : (dictGet cfg "allowed_tools").truthy = true <;>
      simp [ccOptions, hm, JVal.eqStr, ha]
  · intro hna
    simp [ccOptions, hm, JVal.eqStr, hna]
  · rw [codexSettings_prompt, hplan]
  · intro hs
    have hsro : codexSandbox cfg = .str "read-only" := by
      simp [codexSandbox, hs, hm]
    have h2 : codexCmd2 cfg = codexCmd1 cfg ++ [.str "--sandbox", .str "read-only"] := by
      simp [codexCmd2, hsro, JVal.truthy]
    refine ⟨hsro, ?_⟩
    obtain ⟨t, h3⟩ := codexCmd3_decomp cfg
    refine ⟨codexCmd1 cfg,
      t ++ [.str "-C", pyOr (dictGet cfg "working_dir") (.str cwd), .str "--skip-git-repo-check"]
        ++ [.str "--", .str (p ++ planDirective)], ?_⟩
    have hcmd : (codexSettings cwd cfg).cmd =
        (planPrompt (executionMode cfg) (dictGetD cfg "prompt" (.str ""))).map
          (fun q => codexCmd4 cwd cfg ++ [.str "--", q]) := rfl
    rw [hcmd, hplan]
    show some (codexCmd4 cwd cfg ++ [.str "--", .str (p ++ planDirective)]) = _
    rw [codexCmd4, h3, h2]
    simp [List.append_assoc]
  · intro hap
    simp [codexSettings, codexApproval, hap, hm]

/-- A plan-mode config with no sandbox, approval or allowed-tools
overrides. -/
def c9cfg : List (String × JVal) :=
  [("prompt", .str "hi"), ("execution_mode", .str "plan")]

theorem C9_plan_mode_witness :
    executionMode c9cfg = "plan" ∧
    dictGetD c9cfg "prompt" (.str "") = .str "hi" ∧
    ((ccOptions "/w" c9cfg).prompt = some (.str ("hi" ++ planDirective)) ∧
      (ccOptions "/w" c9cfg).permission_mode = "bypassPermissions" ∧
      ((dictGet c9cfg "allowed_tools").truthy = false →
        (ccOptions "/w" c9cfg).allowed_tools =
          some (.arr [.str "Read", .str "Glob", .str "Grep", .str "WebSearch"])) ∧
      (codexSettings "/w" c9cfg).prompt = some (.str ("hi" ++ planDirective)) ∧
      ((dictGet c9cfg "sandbox").truthy = false →
        (codexSettings "/w" c9cfg).sandbox = .str "read-only" ∧
        ∃ l1 l2, (codexSettings "/w" c9cfg).cmd =
          some (l1 ++ [.str "--sandbox", .str "read-only"] ++ l2)) ∧
      ((dictGetD c9cfg "approval_policy" (.str "")).truthy = false →
        (codexSettings "/w" c9cfg).approval = .str "never")) :=
  ⟨by decide, rfl, C9_plan_mode "/w" c9cfg "hi" (by decide) rfl⟩

theorem range'_one_concat (n : Nat) : List.range' 1 (n + 1) = List.range' 1 n ++ [n + 1] := by
  simp [List.range'_concat, Nat.add_comm]

theorem handleItemStarted_iters (item : JVal) (st : CxState)
    (hinv : st.events.filterMap Event.iterOf = List.range' 1 st.iteration) :
    (handleItemStarted item st).1.events.filterMap Event.iterOf =
      List.range' 1 (handleItemStarted item st).1.iteration := by
  cases item with
  | obj fields =>
    simp only [handleItemStarted]
    by_cases h1 : (dictGetD fields "type" (.str "")).eqStr "command_execution" = true
    · simp only [h1, if_true]
      rcases hcmd : dictGetD fields "command" (.str "") with _ | b | n | cmd | l | o <;>
        try exact hinv
      simp [List.filterMap_append, Event.iterOf, hinv, range'_one_concat]
    · simp only [h1, if_false]
      by_cases h2 : (dictGetD fields "type" (.str "")).eqStr "mcpToolCall" = true
      · simp only [h2, if_true]
        rcases htool : dictGetD fields "tool" (.str "") with _ | b | n | tool | l | o <;>
          try exact hinv
        by_cases h3 : isSuppressed tool = true
        · simp [h3, hinv]
        · simp [h3, List.filterMap_append, Event.iterOf, hinv, range'_one_concat]
      · simp only [h2, if_false]
        exact hinv
  | null => exact hinv
  | bool b => exact hinv
  | num n => exact hinv
  | str s => exact hinv
  | arr l => exact hinv

theorem cxStepEvent_iters (ev : JVal) (st : CxState)
    (hinv : st.events.filterMap Event.iterOf = List.range' 1 st.iteration) :
    (cxStepEvent ev st).1.events.filterMap Event.iterOf =
      List.range' 1 (cxStepEvent ev st).1.iteration := by
  cases ev with
  | obj fields =>
    simp only [cxStepEvent]
    by_cases h1 : (dictGetD fields "type" (.str "")).eqStr "item.started" = true
    · simp only [h1, if_true]
      exact handleItemStarted_iters _ _ hinv
    · simp only [h1, if_false]
      by_cases h2 : (dictGetD fields "type" (.str "")).eqStr "item.completed" = true
      · simp only [h2, if_true]
        rcases hitem : dictGetD fields "item" (.obj []) with _ | b | n | s | l | ifields <;>
          try exact hinv
        by_cases h4 : (dictGet ifields "type").eqStr "agent_message" = true
        · simp only [h4, if_true]
          by_cases h5 : (dictGetD ifields "text" (.str "")).truthy = true <;> simp [h5, hinv]
        · simp only [h4, if_false]
          exact hinv
      · simp only [h2, if_false]
        by_cases h3 : (dictGetD fields "type" (.str "")).eqStr "turn.completed" = true
        · simp only [h3, if_true]
          rcases hu : dictGetD fields "usage" (.obj []) with _ | b | n | s | l | ufields <;>
            try exact hinv
          rcases hi : dictGetD ufields "input_tokens" (.num 0) with _ | b | n | s | l | o <;>
            rcases ho : dictGetD ufields "output_tokens" (.num 0) with _ | b2 | n2 | s2 | l2 | o2 <;>
            simp [hi, ho, hinv]
        · simp only [h3, if_false]
          exact hinv
  | null => exact hinv
  | bool b => exact hinv
  | num n => exact hinv
  | str s => exact hinv
  | arr l => exact hinv

theorem cxLoop_iters (lines : List (Option JVal)) (st : CxState)
    (hinv : st.events.filterMap Event.iterOf = List.range' 1 st.iteration) :
    (cxLoop st lines).1.events.filterMap Event.iterOf =
      List.range' 1 (cxLoop st lines).1.iteration := by
  induction lines generalizing st with
  | nil => exact hinv
  | cons l rest ih =>
    cases l with
    | none => exact ih st hinv
    | some ev =>
      have hstep := cxStepEvent_iters ev st hinv
      simp only [cxLoop]
      rcases h : cxStepEvent ev st with ⟨st2, e⟩
      rw [h] at hstep
      cases e with
      | none => exact ih st2 hstep
      | some m => exact hstep

theorem ccBackendFrom_iters_chain (msgs : List SDKMsg) (n : Nat) :
    List.Chain' (· < ·) ((ccBackendFrom n msgs).2.filterMap Event.iterOf) ∧
    ∀ x ∈ (ccBackendFrom n msgs).2.filterMap Event.iterOf, n < x := by
  induction msgs generalizing n with
  | nil => simp [ccBackendFrom]
  | cons m rest ih =>
    cases m with
    | toolUse cb =>
      obtain ⟨ch, bnd⟩ := ih (n + 1)
      cases hc : isCore cb.tool_name with
      | true =>
        simp only [ccBackendFrom, postToolHook_core n cb hc, Option.toList,
          List.singleton_append, List.filterMap_cons, Event.iterOf]
        constructor
        · rw [List.chain'_cons']
          refine ⟨fun b hb => ?_, ch⟩
          exact bnd b (List.mem_of_mem_head? hb)
        · intro x hx
          rcases List.mem_cons.mp hx with h | h
          · omega
          · have := bnd x h
            omega
      | false =>
        simp only [ccBackendFrom, postToolHook_skip n cb hc, Option.toList,
          List.nil_append]
        refine ⟨ch, fun x hx => ?_⟩
        have := bnd x hx
        omega
    | resultMsg r tin tout cost ie =>
      simpa only [ccBackendFrom, List.filterMap_cons, Event.iterOf] using ih n
    | other =>
      simpa [ccBackendFrom] using ih n

/-- C5 (counterexample): an SDK-variant run in which a suppressed `Read`
callback falls between two forwarded `Bash` callbacks: the two emitted
tool events carry `iter` values 1 and 3 — the step between successive
forwarded events is 2, not exactly 1 as the claim asserts for the SDK
variant. -/
theorem C5_counterexample :
    ((ccMain false "/w" "x" (.ok (.obj [("prompt", JVal.str "hi")]))
        (.ok [.toolUse ⟨"Bash", .obj [("command", .str "a")]⟩,
              .toolUse ⟨"Read", .obj []⟩,
              .toolUse ⟨"Bash", .obj [("command", .str "b")]⟩,
              .resultMsg "done" 1 2 (.num 0) false])).events.filterMap Event.iterOf
      = [1, 3]) ∧
    ¬ (3 = 1 + 1) :=
  ⟨rfl, by decide⟩

/-- C5 (amended): in the CLI variant the `iter` values of the emitted
tool events are exactly `1, 2, …, iteration` — each forwarded/command
event increments by exactly 1 and suppressed mcp invocations never
increment; in the SDK variant the `iter` values are strictly increasing
but may advance by more than 1 across suppressed callbacks (the exact
step is quantified by C6). -/
theorem C5_amended_iter_progression :
    (∀ lines, ((cxLoop cxInit lines).1.events.filterMap Event.iterOf) =
      List.range' 1 (cxLoop cxInit lines).1.iteration) ∧
    (∀ msgs, List.Chain' (· < ·) ((ccBackend msgs).2.filterMap Event.iterOf)) :=
  ⟨fun lines => cxLoop_iters lines cxInit rfl,
    fun msgs => (ccBackendFrom_iters_chain msgs 0).1⟩

theorem ccBackendFrom_append (xs ys : List SDKMsg) (n : Nat) :
    ccBackendFrom n (xs ++ ys) =
      ((ccBackendFrom (ccBackendFrom n xs).1 ys).1,
        (ccBackendFrom n xs).2 ++ (ccBackendFrom (ccBackendFrom n xs).1 ys).2) := by
  induction xs generalizing n with
  | nil => simp [ccBackendFrom]
  | cons m rest ih =>
    cases m with
    | toolUse cb => simp [ccBackendFrom, ih]
    | resultMsg r tin tout cost ie => simp [ccBackendFrom, ih]
    | other => simp [ccBackendFrom, ih]

theorem ccBackendFrom_toolUse_fst (cbs : List Callback) (n : Nat) :
    (ccBackendFrom n (cbs.map SDKMsg.toolUse)).1 = n + cbs.length := by
  induction cbs generalizing n with
  | nil => simp [ccBackendFrom]
  | cons cb rest ih =>
    simp only [List.map_cons, ccBackendFrom, postToolHook_fst, ih, List.length_cons]
    omega

theorem ccBackendFrom_suppressed (cbs : List Callback) (n : Nat)
    (h : ∀ c ∈ cbs, isCore c.tool_name = false) :
    (ccBackendFrom n (cbs.map SDKMsg.toolUse)).2 = [] := by
  induction cbs generalizing n with
  | nil => rfl
  | cons cb rest ih =>
    have hc := h cb (List.mem_cons_self _ _)
    simp only [List.map_cons, ccBackendFrom, postToolHook_skip n cb hc, Option.toList,
      List.nil_append]
    exact ih _ (fun c hm => h c (List.mem_cons_of_mem _ hm))

/-- C6: in the SDK variant the shared counter is incremented exactly
once per tool-use callback, forwarded or suppressed — after processing
the whole callback list the counter equals its length — and a forwarded
callback separated from the previous forwarded one by `k = mid.length`
suppressed callbacks produces an event whose `iter` exceeds the previous
forwarded event's `iter` by exactly `k + 1`. -/
theorem C6_counter_once_per_callback (pre mid : List Callback) (c1 c2 : Callback)
    (h1 : isCore c1.tool_name = true) (h2 : isCore c2.tool_name = true)
    (hmid : ∀ c ∈ mid, isCore c.tool_name = false) :
    (ccBackend ((pre ++ c1 :: (mid ++ [c2])).map SDKMsg.toolUse)).1 =
      (pre ++ c1 :: (mid ++ [c2])).length ∧
    (ccBackend ((pre ++ c1 :: (mid ++ [c2])).map SDKMsg.toolUse)).2 =
      (ccBackend (pre.map SDKMsg.toolUse)).2 ++
        [Event.tool c1.tool_name (trimArgs c1.tool_name (ccArgs c1.tool_input))
            (extractFiles (ccArgs c1.tool_input)) (pre.length + 1),
          Event.tool c2.tool_name (trimArgs c2.tool_name (ccArgs c2.tool_input))
            (extractFiles (ccArgs c2.tool_input)) ((pre.length + 1) + (mid.length + 1))] := by
  have hmap : (pre ++ c1 :: (mid ++ [c2])).map SDKMsg.toolUse =
      pre.map SDKMsg.toolUse ++
        (SDKMsg.toolUse c1 :: (mid.map SDKMsg.toolUse ++ [SDKMsg.toolUse c2])) := by
    simp
  have hpre : (ccBackendFrom 0 (pre.map SDKMsg.toolUse)).1 = pre.length := by
    simpa using ccBackendFrom_toolUse_fst pre 0
  have hmid1 : (ccBackendFrom (pre.length + 1) (mid.map SDKMsg.toolUse)).1 =
      pre.length + 1 + mid.length := ccBackendFrom_toolUse_fst mid _
  have hmid2 : (ccBackendFrom (pre.length + 1) (mid.map SDKMsg.toolUse)).2 = [] :=
    ccBackendFrom_suppressed mid _ hmid
  constructor
  · rw [ccBackend, hmap, ccBackendFrom_append, hpre]
    simp only [ccBackendFrom, postToolHook_fst]
    rw [show (mid.map SDKMsg.toolUse ++ [SDKMsg.toolUse c2]) =
        (mid.map SDKMsg.toolUse ++ [SDKMsg.toolUse c2]) from rfl]
    rw [ccBackendFrom_append, hmid1]
    simp only [ccBackendFrom, postToolHook_fst]
    simp
    omega
  · rw [ccBackend, hmap, ccBackendFrom_append, hpre]
    simp only [ccBackendFrom, postToolHook_core _ _ h1, Option.toList]
    rw [ccBackendFrom_append, hmid1, hmid2]
    simp only [ccBackendFrom, postToolHook_core _ _ h2, Option.toList]
    simp [ccBackend, Nat.add_assoc]

/-- A forwarded `Bash` callback for the C6 witness. -/
def c6c1 : Callback := ⟨"Bash", .obj [("command", .str "ls")]⟩

/-- A forwarded `Write` callback for the C6 witness. -/
def c6c2 : Callback := ⟨"Write", .obj [("file_path", .str "/a")]⟩

/-- A prefix containing one suppressed callback. -/
def c6pre : List Callback := [⟨"Read", .obj []⟩]

/-- Two suppressed callbacks between the forwarded ones. -/
def c6mid : List Callback := [⟨"Grep", .obj []⟩, ⟨"Glob", .obj []⟩]

theorem C6_counter_once_per_callback_witness :
    isCore c6c1.tool_name = true ∧ isCore c6c2.tool_name = true ∧
    (∀ c ∈ c6mid, isCore c.tool_name = false) ∧
    ((ccBackend ((c6pre ++ c6c1 :: (c6mid ++ [c6c2])).map SDKMsg.toolUse)).1 =
        (c6pre ++ c6c1 :: (c6mid ++ [c6c2])).length ∧
      (ccBackend ((c6pre ++ c6c1 :: (c6mid ++ [c6c2])).map SDKMsg.toolUse)).2 =
        (ccBackend (c6pre.map SDKMsg.toolUse)).2 ++
          [Event.tool c6c1.tool_name (trimArgs c6c1.tool_name (ccArgs c6c1.tool_input))
              (extractFiles (ccArgs c6c1.tool_input)) (c6pre.length + 1),
            Event.tool c6c2.tool_name (trimArgs c6c2.tool_name (ccArgs c6c2.tool_input))
              (extractFiles (ccArgs c6c2.tool_input)) ((c6pre.length + 1) + (c6mid.length + 1))]) :=
  ⟨rfl, rfl, by decide,
    C6_counter_once_per_callback c6pre c6mid c6c1 c6c2 rfl rfl (by decide)⟩
